import Mathlib

/-!
Verification development for an HTTP/2-class connection engine
(connection demultiplexer, settings negotiation, flow-control windows,
stream lifecycle).  The Go source is shallowly embedded: `int32`
arithmetic is `Int` with explicit two's-complement wrapping, Go maps are
association lists with first-match update semantics, channels are
explicit queues (a list plus a closed flag), and code paths that
dereference a nil pointer return `none`.
-/

namespace Http2

/-! ## Two's-complement 32-bit integer model -/

/-- Normalize an integer into the `int32` range by two's-complement wrapping. -/
def wrap32 (z : Int) : Int := (z + 2147483648) % 4294967296 - 2147483648

/-- The `int32` range. -/
abbrev inB32 (z : Int) : Prop := -2147483648 ≤ z ∧ z < 2147483648

/-- Go `int32` addition. -/
def i32add (a b : Int) : Int := wrap32 (a + b)

/-- Go `int32` subtraction. -/
def i32sub (a b : Int) : Int := wrap32 (a - b)

/-- Go conversion `uint32(z)` of an `int32` value, as a natural number. -/
def u32cast (z : Int) : Nat := (z % 4294967296).toNat

/-- Go conversion `int32(n)` of a `uint32` value. -/
def i32ofU32 (n : Nat) : Int := wrap32 (Int.ofNat n)

/-! ## Settings tables (Go `map[SettingsID]int32`) -/

/-- Settings parameter identifiers (the ones this repository uses). -/
inductive SettingsID where
  | SETTINGS_HEADER_TABLE_SIZE
  | SETTINGS_MAX_CONCURRENT_STREAMS
  | SETTINGS_INITIAL_WINDOW_SIZE
deriving DecidableEq, Repr

export SettingsID (SETTINGS_HEADER_TABLE_SIZE SETTINGS_MAX_CONCURRENT_STREAMS
  SETTINGS_INITIAL_WINDOW_SIZE)

/-- A Go `map[SettingsID]int32`: an association list with unique keys. -/
abbrev SettingsTable := List (SettingsID × Int)

/-- Go map read `tbl[key]` with its `ok` bit (`none` = key absent). -/
def lookupTable : SettingsTable → SettingsID → Option Int
  | [], _ => none
  | (k, v) :: rest, key => if k = key then some v else lookupTable rest key

/-- Go map write `tbl[key] = v` (replaces an existing binding, else appends). -/
def setKey : SettingsTable → SettingsID → Int → SettingsTable
  | [], key, v => [(key, v)]
  | (k, w) :: rest, key, v =>
      if k = key then (key, v) :: rest else (k, w) :: setKey rest key v

/-- `DefaultSettings` from the repository's constants file
(`SETTINGS_MAX_CONCURRENT_STREAMS ↦ 100`,
`SETTINGS_INITIAL_WINDOW_SIZE ↦ DEFAULT_WINDOW_SIZE = 65535`). -/
def DefaultSettingsList : SettingsTable :=
  [(SETTINGS_MAX_CONCURRENT_STREAMS, 100), (SETTINGS_INITIAL_WINDOW_SIZE, 65535)]

/-- `NilSettings`: the empty settings table. -/
def NilSettings : SettingsTable := []

/-- Modelled from the spec: the SETTINGS acknowledgment flag bit of the
external frame codec (not under src/); spec §6 fixes the flag-bit meanings. -/
def ACK : Nat := 1

/-- The all-clear flags byte. -/
def UNSET : Nat := 0

/-- Modelled from the spec: the end-of-stream flag bit of the external frame
codec; `RecvResponse` in src compares the flags byte against `0x1`. -/
def END_STREAM : Nat := 1

/-- Modelled from the spec: the end-of-headers flag bit of the external frame
codec. -/
def END_HEADERS : Nat := 4

/-! ## Frames -/

/-- A header list (Go `http.Header`, flattened to ordered pairs). -/
abbrev Headers := List (String × String)

/-- The payload of a SETTINGS frame. -/
structure SettingsFrameV where
  Flags : Nat
  StreamID : Nat
  Settings : SettingsTable
deriving DecidableEq, Repr

/-- The frame variants this engine dispatches on (the wire codec is external;
only the decoded shape matters here). -/
inductive FrameV where
  | settings (sf : SettingsFrameV)
  | headers (flags : Nat) (streamId : Nat) (hdrs : Headers) (block : List Nat)
  | data (flags : Nat) (streamId : Nat) (payload : List Nat)
  | windowUpdate (streamId : Nat) (increment : Nat)
  | goaway (streamId : Nat)
  | rstStream (streamId : Nat)
deriving DecidableEq, Repr

/-- The frame header's stream identifier. -/
def FrameV.streamId : FrameV → Nat
  | .settings sf => sf.StreamID
  | .headers _ sid _ _ => sid
  | .data _ sid _ => sid
  | .windowUpdate sid _ => sid
  | .goaway sid => sid
  | .rstStream sid => sid

/-- The frame header's flags byte (frames built without flags carry 0). -/
def FrameV.flagsOf : FrameV → Nat
  | .settings sf => sf.Flags
  | .headers fl _ _ _ => fl
  | .data fl _ _ => fl
  | .windowUpdate _ _ => 0
  | .goaway _ => 0
  | .rstStream _ => 0

/-- Whether the end-of-stream bit (0x1) is set in the frame's flags byte. -/
def hasES (f : FrameV) : Bool := f.flagsOf % 2 == 1

/-! ## Flow-control window -/

/-- Modelled from the spec: the `Window` type lives outside src/ (only its
fields are used there).  Spec §3 lists exactly these attributes. -/
structure Window where
  InitialSize : Int
  CurrentSize : Int
  Threshold : Int
  PeerCurrentSize : Int
deriving DecidableEq, Repr

/-- Modelled from the spec: `NewWindowDefault` is not under src/.  Initial and
current sizes start at the protocol default 65535 (spec §3/§8); the default
low-water mark value is not given by the spec, taken here as half the default
window (no claim depends on its value). -/
def NewWindowDefault : Window :=
  { InitialSize := 65535, CurrentSize := 65535, Threshold := 32767, PeerCurrentSize := 65535 }

/-- The inline settings-rebase of `HandleSettings` (spec §4.1 `Rebase`):
`PeerCurrentSize -= InitialSize; PeerCurrentSize += newSize;
InitialSize = newSize`, in `int32` arithmetic. -/
def rebaseTo (w : Window) (newSize : Int) : Window :=
  { w with
    PeerCurrentSize := i32add (i32sub w.PeerCurrentSize w.InitialSize) newSize,
    InitialSize := newSize }

/-! ## Streams -/

/-- Stream lifecycle states (spec §3/§4.2). -/
inductive StreamStateLbl where
  | IDLE
  | OPEN
  | HALF_CLOSED_LOCAL
  | HALF_CLOSED_REMOTE
  | CLOSED
deriving DecidableEq, Repr

export StreamStateLbl (IDLE OPEN HALF_CLOSED_LOCAL HALF_CLOSED_REMOTE CLOSED)

/-- Frame direction for state transitions. -/
inductive Direction where
  | RECV
  | SEND
deriving DecidableEq, Repr

/-- The per-stream state `conn.go` manipulates: state label, window, settings
references (modelled by value; aliasing is treated separately for C10), the
inbound queue (`ReadChan`) and its closed flag. -/
structure StreamV where
  ID : Nat
  State : StreamStateLbl
  Window : Window
  Settings : SettingsTable
  PeerSettings : SettingsTable
  ReadChan : List FrameV
  ReadChanClosed : Bool
deriving DecidableEq, Repr

/-- `conn.NewStream`: a fresh stream starts IDLE with a default window and the
connection's settings tables. -/
def NewStream (sid : Nat) (settings peerSettings : SettingsTable) : StreamV :=
  { ID := sid
    State := IDLE
    Window := NewWindowDefault
    Settings := settings
    PeerSettings := peerSettings
    ReadChan := []
    ReadChanClosed := false }

/-- Modelled from the spec: `Stream.ChangeState` is not under src/ (only
called there); spec §4.2 gives the transition table.  Returns the new state
and an error bit (unexpected frame for the current state); `ReadLoop` logs
that error and continues. -/
def ChangeState (st : StreamStateLbl) (f : FrameV) (d : Direction) :
    StreamStateLbl × Bool :=
  match f with
  | .rstStream _ => (CLOSED, false)
  | _ =>
    match st with
    | IDLE =>
      match f with
      | .headers _ _ _ _ =>
        if hasES f then
          (if d = Direction.RECV then HALF_CLOSED_REMOTE else HALF_CLOSED_LOCAL,
           false)
        else (OPEN, false)
      | _ => (IDLE, true)
    | OPEN =>
      if hasES f then
        (if d = Direction.RECV then HALF_CLOSED_REMOTE else HALF_CLOSED_LOCAL,
         false)
      else (OPEN, false)
    | HALF_CLOSED_LOCAL =>
      match d with
      | Direction.RECV => if hasES f then (CLOSED, false) else (HALF_CLOSED_LOCAL, false)
      | Direction.SEND => (HALF_CLOSED_LOCAL, true)
    | HALF_CLOSED_REMOTE =>
      match d with
      | Direction.SEND => if hasES f then (CLOSED, false) else (HALF_CLOSED_REMOTE, false)
      | Direction.RECV => (HALF_CLOSED_REMOTE, true)
    | CLOSED => (CLOSED, true)

/-- Modelled from the spec: `Stream.Close` is not under src/ (only called by
`Conn.Close`); spec §5/§7 — a closing stream reaches CLOSED and its inbound
queue is closed so its consumer observes end-of-data. -/
def StreamClose (s : StreamV) : StreamV :=
  { s with
    State := CLOSED,
    ReadChanClosed := true }

/-! ## Connection -/

/-- The connection state `conn.go` manipulates.  `Streams` is a Go map whose
values are stream pointers: an entry `(sid, none)` is a key present with a nil
pointer (which is what `conn.Streams[sid] = nil` leaves behind).  `WriteChan`
is the shared outbound queue: enqueued frames plus a closed flag. -/
structure Conn where
  LastStreamID : Nat
  Window : Window
  Settings : SettingsTable
  PeerSettings : SettingsTable
  Streams : List (Nat × Option StreamV)
  WriteQueue : List FrameV
  WriteChanClosed : Bool
deriving DecidableEq, Repr

/-- `NewConn` (value view): default window, default settings tables, empty
stream map and outbound queue.  In Go both settings fields are reference
copies of the package-level `DefaultSettings`; that aliasing is modelled
separately by the store-based model below (C10). -/
def NewConnV : Conn :=
  { LastStreamID := 0
    Window := NewWindowDefault
    Settings := DefaultSettingsList
    PeerSettings := DefaultSettingsList
    Streams := []
    WriteQueue := []
    WriteChanClosed := false }

/-- Go map read `conn.Streams[sid]` with its `ok` bit: `none` = key absent,
`some none` = key present holding a nil stream pointer. -/
def lookupStream : List (Nat × Option StreamV) → Nat → Option (Option StreamV)
  | [], _ => none
  | (k, v) :: rest, sid => if k = sid then some v else lookupStream rest sid

/-- Go map write `conn.Streams[sid] = v`. -/
def setStream : List (Nat × Option StreamV) → Nat → Option StreamV →
    List (Nat × Option StreamV)
  | [], sid, v => [(sid, v)]
  | (k, w) :: rest, sid, v =>
      if k = sid then (sid, v) :: rest else (k, w) :: setStream rest sid v

/-- The per-stream effect of a new initial window size inside
`HandleSettings`'s stream loop: rebase the stream window and write the
stream's `PeerSettings` entry. -/
def applySettingToStream (w : Int) (s : StreamV) : StreamV :=
  { s with
    Window := rebaseTo s.Window w,
    PeerSettings := setKey s.PeerSettings SETTINGS_INITIAL_WINDOW_SIZE w }

/-- Apply `g` to every stream of the map; a nil entry makes the Go loop
dereference a nil pointer (`stream.Window`), so the result is `none`. -/
def mapLive (g : StreamV → StreamV) :
    List (Nat × Option StreamV) → Option (List (Nat × Option StreamV))
  | [] => some []
  | (_, none) :: _ => none
  | (k, some s) :: rest =>
      (mapLive g rest).map (fun r => (k, some (g s)) :: r)

/-- `conn.HandleSettings` from `conn.go`, line for line: ACK flags are a
no-op; unknown flags are reported and ignored; otherwise the frame's settings
replace `conn.Settings`, then a present initial-window-size is validated
(`> 65535` aborts with a flow-control error, before any window change and
without acknowledging), else the connection window, every stream's window and
the `PeerSettings` entries are rebased, and finally a SETTINGS ACK with
`NilSettings` is enqueued.  `none` = the stream loop hit a nil map entry. -/
def HandleSettings (conn : Conn) (sf : SettingsFrameV) : Option Conn :=
  if sf.Flags = ACK then some conn
  else if sf.Flags ≠ UNSET then some conn
  else
    let c1 : Conn := { conn with Settings := sf.Settings }
    match lookupTable sf.Settings SETTINGS_INITIAL_WINDOW_SIZE with
    | some w =>
      if 65535 < w then some c1
      else
        let c2 : Conn := { c1 with
          Window := rebaseTo c1.Window w,
          PeerSettings := setKey c1.PeerSettings SETTINGS_INITIAL_WINDOW_SIZE w }
        match mapLive (applySettingToStream w) c2.Streams with
        | none => none
        | some strs =>
            some { c2 with
              Streams := strs,
              WriteQueue := c2.WriteQueue ++ [.settings ⟨ACK, 0, NilSettings⟩] }
    | none =>
        some { c1 with WriteQueue := c1.WriteQueue ++ [.settings ⟨ACK, 0, NilSettings⟩] }

/-- `conn.WindowUpdate(length)` from `conn.go`: decrement the connection
window's `CurrentSize`; below `Threshold`, enqueue a connection-scoped
WINDOW_UPDATE for `InitialSize - CurrentSize` and add that amount back. -/
def WindowUpdate (conn : Conn) (length : Int) : Conn :=
  let cur := i32sub conn.Window.CurrentSize length
  if cur < conn.Window.Threshold then
    let update := i32sub conn.Window.InitialSize cur
    { conn with
      Window := { conn.Window with CurrentSize := i32add cur update },
      WriteQueue := conn.WriteQueue ++ [.windowUpdate 0 (u32cast update)] }
  else
    { conn with Window := { conn.Window with CurrentSize := cur } }

/-- `conn.Close` from `conn.go`: close every non-nil stream, then close the
shared outbound queue. -/
def ConnClose (conn : Conn) : Conn :=
  { conn with
    Streams := conn.Streams.map (fun p => (p.1, p.2.map StreamClose)),
    WriteChanClosed := true }

/-- `conn.WriteLoop`: `for frame := range conn.WriteChan` writes queued
frames in order; once the channel is closed it drains what is queued and
terminates (`some queued`); on an open channel it blocks (`none`). -/
def WriteLoop (queue : List FrameV) (closed : Bool) : Option (List FrameV) :=
  if closed then some queue else none

/-- The stream-level tail of one `ReadLoop` iteration: resolve or lazily
create the stream, update `LastStreamID`, drive the state machine, replace
the map entry by nil when the stream reaches CLOSED, and deliver the frame to
the stream's inbound queue.  A nil map entry makes `stream.ChangeState`
dereference a nil pointer: `none`. -/
def streamPart (conn : Conn) (f : FrameV) : Option Conn :=
  let sid := f.streamId
  let drive : Conn → StreamV → Conn := fun c s =>
    let st' := (ChangeState s.State f Direction.RECV).1
    let s' := { s with
      State := st',
      ReadChan := s.ReadChan ++ [f] }
    if st' = CLOSED then { c with Streams := setStream c.Streams sid none }
    else { c with Streams := setStream c.Streams sid (some s') }
  match lookupStream conn.Streams sid with
  | some none => none
  | some (some s) => some (drive conn s)
  | none =>
    let s := NewStream sid conn.Settings conn.PeerSettings
    let conn' : Conn := { conn with
      Streams := setStream conn.Streams sid (some s),
      LastStreamID := if conn.LastStreamID < sid then sid else conn.LastStreamID }
    some (drive conn' s)

/-- One iteration of `conn.ReadLoop` on a decoded frame, following the
source's sequential dispatch: settings handling, connection-level window
update, GOAWAY (close and stop: the `Bool` is false), data-frame window
consumption, then the stream-level tail unless the stream id is 0.
`none` = a nil-pointer panic inside the iteration. -/
def readStep (conn : Conn) (f : FrameV) : Option (Conn × Bool) :=
  let afterSettings : Option Conn :=
    match f with
    | .settings sf => HandleSettings conn sf
    | _ => some conn
  match afterSettings with
  | none => none
  | some conn =>
    let conn :=
      match f with
      | .windowUpdate sid inc =>
        if sid = 0 then
          { conn with Window := { conn.Window with
              PeerCurrentSize := i32add conn.Window.PeerCurrentSize (i32ofU32 inc) } }
        else conn
      | _ => conn
    match f with
    | .goaway _ => some (ConnClose conn, false)
    | _ =>
      let conn :=
        match f with
        | .data _ _ payload => WindowUpdate conn (Int.ofNat payload.length)
        | _ => conn
      if f.streamId = 0 then some (conn, true)
      else
        match streamPart conn f with
        | none => none
        | some conn => some (conn, true)

/-! ## Request/response adapters (`stream.go`) -/

/-- `stream.SendRequest` from `stream.go`.  The header-compression encoder is
the external collaborator `conn.EncodeHeader`, passed in as `enc`; a frame's
`Length` field is the Go `uint16` cast of its payload length.  A GET emits one
HEADERS frame with END_STREAM and END_HEADERS; a POST emits one HEADERS frame
with END_HEADERS, one DATA frame with the whole body, and a zero-length DATA
frame with END_STREAM; any other method emits nothing. -/
def SendRequest (enc : Headers → List Nat) (sid : Nat) (method : String)
    (hdrs : Headers) (body : List Nat) : List FrameV :=
  if method = "GET" then
    [.headers (END_STREAM + END_HEADERS) sid hdrs (enc hdrs)]
  else if method = "POST" then
    [.headers END_HEADERS sid hdrs (enc hdrs),
     .data 0 sid body,
     .data END_STREAM sid []]
  else []

/-- The header-accumulation step of `RecvResponse`: a HEADERS frame replaces
the current header set, any other frame leaves it. -/
def updHeaders (hdr : Headers) : FrameV → Headers
  | .headers _ _ h _ => h
  | _ => hdr

/-- The body-accumulation step of `RecvResponse`: a DATA frame appends its
payload, any other frame appends nothing. -/
def updBody (body : List Nat) : FrameV → List Nat
  | .data _ _ d => body ++ d
  | _ => body

/-- The loop of `stream.RecvResponse` from `stream.go`, over the list of
frames that will arrive: process the frame, break when the flags byte equals
exactly `0x1`, else break when the counter exceeds 50, else continue.  An
exhausted list means the code would block on the next receive (`none`). -/
def recvLoop : List FrameV → Nat → Headers → List Nat → Option (Headers × List Nat)
  | [], _, _, _ => none
  | f :: rest, c, hdr, body =>
    let hdr' := updHeaders hdr f
    let body' := updBody body f
    if f.flagsOf = 1 then some (hdr', body')
    else if 50 < c then some (hdr', body')
    else recvLoop rest (c + 1) hdr' body'

/-- `stream.RecvResponse`: the headers and body of the synthesized response
(the remaining response fields are derived from these). -/
def RecvResponse (frames : List FrameV) : Option (Headers × List Nat) :=
  recvLoop frames 0 [] []

/-- Spec-side description of the frames `RecvResponse` processes: the prefix
up to and including the first frame whose flags byte is exactly `0x1` or at
which the counter bound trips, `none` if the list ends before either. -/
def specDrain : List FrameV → Nat → Option (List FrameV)
  | [], _ => none
  | f :: rest, c =>
    if f.flagsOf = 1 ∨ 50 < c then some [f]
    else (specDrain rest (c + 1)).map (fun p => f :: p)

/-- Spec-side: the headers carried by the last HEADERS frame of the list
(`hdr` if there is none). -/
def lastHeadersIn (hdr : Headers) : List FrameV → Headers
  | [] => hdr
  | f :: rest => lastHeadersIn (updHeaders hdr f) rest

/-- Spec-side: the concatenation of the DATA payloads of the list, in order. -/
def dataConcat : List FrameV → List Nat
  | [] => []
  | f :: rest => updBody [] f ++ dataConcat rest

/-! ## Store-based model of the settings-table aliasing (`NewConn`) -/

/-- A heap of Go map objects for settings tables; a reference is an index. -/
structure Store where
  tables : List SettingsTable
deriving DecidableEq, Repr

/-- A Connection's two settings-table references.  `NewConn` executes
`Settings: DefaultSettings, PeerSettings: DefaultSettings`: Go map values are
references, so both fields alias the package-level table. -/
structure ConnRefs where
  SettingsRef : Nat
  PeerSettingsRef : Nat
deriving DecidableEq, Repr

/-- The reference of the package-level `DefaultSettings` map. -/
def defaultRef : Nat := 0

/-- The initial heap: only the package-level `DefaultSettings` object. -/
def store0 : Store := ⟨[DefaultSettingsList]⟩

/-- `NewConn`'s settings fields: both are reference copies of
`DefaultSettings`; no table is allocated. -/
def NewConnRefs : ConnRefs := ⟨defaultRef, defaultRef⟩

/-- Read the table a reference points at. -/
def readRef (st : Store) (r : Nat) : SettingsTable := st.tables.getD r []

/-- Overwrite the table a reference points at. -/
def writeRef (st : Store) (r : Nat) (t : SettingsTable) : Store :=
  ⟨st.tables.set r t⟩

/-- The settings-table effects of `HandleSettings` in the store model:
`conn.Settings = settings` repoints `Settings` at the frame's map object
(allocated into the heap), and `conn.PeerSettings[SETTINGS_INITIAL_WINDOW_SIZE]
= w` mutates the object `PeerSettings` points at in place.  Window, stream and
acknowledgment effects are the value-level `HandleSettings` above; they touch
no settings table. -/
def HandleSettingsRefs (st : Store) (c : ConnRefs) (sf : SettingsFrameV) :
    Store × ConnRefs :=
  if sf.Flags = ACK then (st, c)
  else if sf.Flags ≠ UNSET then (st, c)
  else
    let fref := st.tables.length
    let st1 : Store := ⟨st.tables ++ [sf.Settings]⟩
    let c1 : ConnRefs := { c with SettingsRef := fref }
    match lookupTable sf.Settings SETTINGS_INITIAL_WINDOW_SIZE with
    | some w =>
      if 65535 < w then (st1, c1)
      else
        (writeRef st1 c1.PeerSettingsRef
          (setKey (readRef st1 c1.PeerSettingsRef) SETTINGS_INITIAL_WINDOW_SIZE w),
         c1)
    | none => (st1, c1)

/-! ## Concrete inputs used by witnesses and counterexamples -/

/-- A live stream in state OPEN with the default window, as after an exchange
of HEADERS frames. -/
def openStream (sid : Nat) : StreamV :=
  { NewStream sid DefaultSettingsList DefaultSettingsList with State := OPEN }

/-- A connection with three open streams (the spec's §8 scenario). -/
def connThree : Conn :=
  { NewConnV with
    LastStreamID := 5,
    Streams := [(1, some (openStream 1)), (3, some (openStream 3)), (5, some (openStream 5))] }

/-- A SETTINGS frame announcing initial-window-size 70000 (> 65535). -/
def sf70000 : SettingsFrameV :=
  ⟨UNSET, 0, [(SETTINGS_INITIAL_WINDOW_SIZE, 70000)]⟩

/-- A SETTINGS frame announcing initial-window-size 20000. -/
def sf20000 : SettingsFrameV :=
  ⟨UNSET, 0, [(SETTINGS_INITIAL_WINDOW_SIZE, 20000)]⟩

/-- The connection after a closed stream 1: `ReadLoop` left a nil map entry. -/
def connNilEntry : Conn :=
  { NewConnV with LastStreamID := 1, Streams := [(1, none)] }

/-- A HEADERS frame for stream 1 with no flags. -/
def hdrFrame1 : FrameV := .headers 0 1 [] []

/-- Header list A for the `RecvResponse` counterexample. -/
def hdrsA : Headers := [("a", "1")]

/-- Header list B for the `RecvResponse` counterexample. -/
def hdrsB : Headers := [("b", "2")]

/-- The `RecvResponse` counterexample input: the first frame carries the
end-of-stream bit (flags 0x5 = END_STREAM + END_HEADERS) but its flags byte
is not exactly `0x1`. -/
def cexFrames : List FrameV :=
  [.headers 5 1 hdrsA [], .headers 0 1 hdrsB [], .data 1 1 [2]]

/-- The GET method string. -/
def methodGET : String := "GET"

/-- The POST method string. -/
def methodPOST : String := "POST"

/-- A connection with two open streams and one frame already queued outbound
(the spec's §8 termination scenario). -/
def connTwo : Conn :=
  { NewConnV with
    LastStreamID := 3,
    Streams := [(1, some (openStream 1)), (3, some (openStream 3))],
    WriteQueue := [hdrFrame1] }

/-- A connection with a small window for exercising the replenishment path
(InitialSize 100, Threshold 50). -/
def c3conn : Conn :=
  { NewConnV with
    Window := { InitialSize := 100, CurrentSize := 100, Threshold := 50, PeerCurrentSize := 100 } }

/-- A 60-byte DATA payload. -/
def payload60 : List Nat := List.replicate 60 0

/-- The heap and references after one connection built by `NewConn` handles
the 20000 SETTINGS frame. -/
def aliasResult : Store × ConnRefs := HandleSettingsRefs store0 NewConnRefs sf20000

/-! ## Helper lemmas -/

theorem updBody_split (body : List Nat) (f : FrameV) :
    updBody body f = body ++ updBody [] f := by
  cases f <;> simp [updBody]

theorem recvLoop_spec (fs : List FrameV) : ∀ (c : Nat) (hdr : Headers) (body : List Nat),
    recvLoop fs c hdr body =
      (specDrain fs c).map (fun p => (lastHeadersIn hdr p, body ++ dataConcat p)) := by
  induction fs with
  | nil => intro c hdr body; simp [recvLoop, specDrain]
  | cons f rest ih =>
    intro c hdr body
    by_cases h1 : f.flagsOf = 1
    · simp [recvLoop, specDrain, h1, lastHeadersIn, dataConcat]
      exact updBody_split body f
    · by_cases h2 : 50 < c
      · simp [recvLoop, specDrain, h1, h2, lastHeadersIn, dataConcat]
        exact updBody_split body f
      · simp only [recvLoop, specDrain, h1, h2, if_neg, ite_false]
        rw [ih]
        cases hs : specDrain rest (c + 1) with
        | none => simp
        | some p =>
          simp [lastHeadersIn, dataConcat]
          rw [updBody_split body f, List.append_assoc]

theorem mapLive_all (g : StreamV → StreamV) (l : List (Nat × Option StreamV))
    (h : ∀ p ∈ l, p.2.isSome) :
    mapLive g l = some (l.map (fun p => (p.1, p.2.map g))) := by
  induction l with
  | nil => simp [mapLive]
  | cons q rest ih =>
    obtain ⟨k, v⟩ := q
    cases v with
    | none => exact absurd (h (k, none) (by simp)) (by simp)
    | some s =>
      have := ih (fun p hp => h p (List.mem_cons_of_mem _ hp))
      simp [mapLive, this]

theorem streamPart_some (conn : Conn) (f : FrameV)
    (h : lookupStream conn.Streams f.streamId ≠ some none) :
    ∃ c', streamPart conn f = some c' ∧
      c'.Window = conn.Window ∧ c'.WriteQueue = conn.WriteQueue ∧
      c'.WriteChanClosed = conn.WriteChanClosed := by
  unfold streamPart
  cases hl : lookupStream conn.Streams f.streamId with
  | none =>
    simp only [hl]
    refine ⟨_, rfl, ?_⟩
    dsimp only
    split <;> simp
  | some v =>
    cases v with
    | none => exact absurd hl h
    | some s =>
      simp only [hl]
      refine ⟨_, rfl, ?_⟩
      dsimp only
      split <;> simp

/-! ## Claim theorems -/

/-- C9: applying the settings rebase with arguments `(old, new)` and then
with the inverse arguments `(new, old)` is the identity on `PeerCurrentSize`
(for any `Window`, hence identically for the connection window and any
stream's window). -/
theorem rebase_inverse_identity (w : Window) (oldSize newSize : Int)
    (hold : w.InitialSize = oldSize) (hp : inB32 w.PeerCurrentSize) :
    (rebaseTo (rebaseTo w newSize) oldSize).PeerCurrentSize = w.PeerCurrentSize := by
  subst hold
  simp only [rebaseTo, i32add, i32sub, wrap32]
  omega

/-- Witness for C9 at the default window and new size 20000. -/
theorem rebase_inverse_identity_witness :
    NewWindowDefault.InitialSize = 65535 ∧ inB32 NewWindowDefault.PeerCurrentSize ∧
    (rebaseTo (rebaseTo NewWindowDefault 20000) 65535).PeerCurrentSize =
      NewWindowDefault.PeerCurrentSize :=
  ⟨rfl, by decide,
   rebase_inverse_identity NewWindowDefault 65535 20000 rfl (by decide)⟩

/-- C7: a GET (body-less) exchange emits exactly one HEADERS frame with both
END_STREAM and END_HEADERS set, carrying the encoder-produced header block; a
POST (body-bearing) exchange emits one HEADERS frame with END_HEADERS only, a
DATA frame carrying the body bytes, and a final zero-length DATA frame with
END_STREAM. -/
theorem sendRequest_frame_sequences (enc : Headers → List Nat) (sid : Nat)
    (hdrs : Headers) (body : List Nat) :
    SendRequest enc sid methodGET hdrs body =
      [.headers (END_STREAM + END_HEADERS) sid hdrs (enc hdrs)] ∧
    SendRequest enc sid methodPOST hdrs body =
      [.headers END_HEADERS sid hdrs (enc hdrs),
       .data 0 sid body,
       .data END_STREAM sid []] := by
  constructor <;> simp [SendRequest, methodGET, methodPOST]

/-- C6 counterexample: the first frame of `cexFrames` carries the
end-of-stream bit (flags 0x5), yet `RecvResponse` does not stop there: it
returns the later HEADERS frame's headers and the DATA payload received after
that first frame, not `(hdrsA, [])`. -/
theorem recvResponse_counterexample :
    RecvResponse cexFrames = some (hdrsB, [2]) ∧
    hasES (FrameV.headers 5 1 hdrsA []) = true ∧
    some (hdrsB, ([2] : List Nat)) ≠ some (hdrsA, ([] : List Nat)) := by
  refine ⟨by decide, by decide, by decide⟩

/-- C6 (amended): `RecvResponse` processes the inbound frames up to and
including the first frame whose flags byte equals exactly `0x1`, bounded by
the fixed hardcoded cap (counter limit 50, i.e. at most 52 frames); it blocks
if the frames run out first.  On the processed prefix it takes the headers of
the most recent HEADERS frame and the in-order concatenation of all DATA
payloads. -/
theorem recvResponse_characterization (frames : List FrameV) :
    RecvResponse frames =
      (specDrain frames 0).map (fun p => (lastHeadersIn [] p, dataConcat p)) := by
  rw [RecvResponse, recvLoop_spec]
  simp

/-- C1 counterexample: on a no-flags SETTINGS frame whose initial-window-size
is 70000, `HandleSettings` does apply state from the frame to the Connection —
the resulting connection differs from the input because its `Settings` table
was already replaced before the validation aborted. -/
theorem settings_oversized_window_counterexample :
    HandleSettings NewConnV sf70000 ≠ some NewConnV ∧
    HandleSettings NewConnV sf70000 =
      some { NewConnV with Settings := sf70000.Settings } := by
  refine ⟨by decide, by decide⟩

/-- C1 (amended): on a no-flags SETTINGS frame carrying an initial-window-size
strictly greater than 65535, `HandleSettings` aborts with a flow-control
error: no window (connection or stream) changes, the stream table and
`PeerSettings` are untouched, and no acknowledgment is enqueued — but the
Connection's `Settings` table has already been replaced wholesale with the
frame's parameter set before the validation runs. -/
theorem settings_oversized_window_aborts (conn : Conn) (sf : SettingsFrameV)
    (w : Int) (hfl : sf.Flags = UNSET)
    (hw : lookupTable sf.Settings SETTINGS_INITIAL_WINDOW_SIZE = some w)
    (hgt : 65535 < w) :
    HandleSettings conn sf = some { conn with Settings := sf.Settings } := by
  unfold HandleSettings
  rw [hfl, hw]
  simp [UNSET, ACK, hgt]

/-- Witness for C1's amended theorem at a connection with three open streams
and initial-window-size 70000. -/
theorem settings_oversized_window_aborts_witness :
    (sf70000.Flags = UNSET ∧
     lookupTable sf70000.Settings SETTINGS_INITIAL_WINDOW_SIZE = some 70000 ∧
     (65535 : Int) < 70000) ∧
    HandleSettings connThree sf70000 =
      some { connThree with Settings := sf70000.Settings } :=
  ⟨⟨rfl, by decide, by decide⟩,
   settings_oversized_window_aborts connThree sf70000 70000 rfl (by decide) (by decide)⟩

/-- C2: on a no-flags SETTINGS frame with initial-window-size `w ≤ 65535`,
`HandleSettings` sets `InitialSize` to `w` and shifts `PeerCurrentSize` by
exactly `w - oldInitialSize`, identically on the connection window and on
every live stream's window, and then enqueues a SETTINGS ACK with an empty
parameter set on the outbound queue. -/
theorem settings_valid_window_applied (conn : Conn) (sf : SettingsFrameV)
    (w : Int) (hfl : sf.Flags = UNSET)
    (hw : lookupTable sf.Settings SETTINGS_INITIAL_WINDOW_SIZE = some w)
    (hle : w ≤ 65535)
    (hlive : ∀ p ∈ conn.Streams, p.2.isSome)
    (hb2 : inB32 (conn.Window.PeerCurrentSize - conn.Window.InitialSize + w))
    (hbs : ∀ p ∈ conn.Streams, ∀ s, p.2 = some s →
        inB32 (s.Window.PeerCurrentSize - s.Window.InitialSize + w)) :
    ∃ c', HandleSettings conn sf = some c' ∧
      c'.Window.InitialSize = w ∧
      c'.Window.PeerCurrentSize =
        conn.Window.PeerCurrentSize + (w - conn.Window.InitialSize) ∧
      c'.Streams = conn.Streams.map (fun p => (p.1, p.2.map (applySettingToStream w))) ∧
      (∀ p ∈ conn.Streams, ∀ s, p.2 = some s →
        (applySettingToStream w s).Window.InitialSize = w ∧
        (applySettingToStream w s).Window.PeerCurrentSize =
          s.Window.PeerCurrentSize + (w - s.Window.InitialSize)) ∧
      c'.WriteQueue = conn.WriteQueue ++ [.settings ⟨ACK, 0, NilSettings⟩] := by
  have hngt : ¬ 65535 < w := not_lt.2 hle
  have hmain : HandleSettings conn sf =
      some { conn with
        Settings := sf.Settings,
        Window := rebaseTo conn.Window w,
        PeerSettings := setKey conn.PeerSettings SETTINGS_INITIAL_WINDOW_SIZE w,
        Streams := conn.Streams.map (fun p => (p.1, p.2.map (applySettingToStream w))),
        WriteQueue := conn.WriteQueue ++ [.settings ⟨ACK, 0, NilSettings⟩] } := by
    unfold HandleSettings
    rw [hfl, hw]
    simp only [UNSET, ACK]
    rw [if_neg (by omega), if_neg (by simp), if_neg hngt]
    rw [mapLive_all _ _ hlive]
  refine ⟨_, hmain, ?_, ?_, rfl, ?_, rfl⟩
  · simp [rebaseTo]
  · simp only [rebaseTo, i32add, i32sub, wrap32]
    omega
  · intro p hp s hs
    have b2 := hbs p hp s hs
    constructor
    · simp [applySettingToStream, rebaseTo]
    · simp only [applySettingToStream, rebaseTo, i32add, i32sub, wrap32]
      omega

/-- Witness for C2: three open streams at the 65535 default, new size 20000 —
each stream's `PeerCurrentSize` drops by exactly 45535. -/
theorem settings_valid_window_applied_witness :
    (sf20000.Flags = UNSET ∧
     lookupTable sf20000.Settings SETTINGS_INITIAL_WINDOW_SIZE = some 20000 ∧
     (20000 : Int) ≤ 65535 ∧
     (∀ p ∈ connThree.Streams, p.2.isSome) ∧
     (65535 : Int) + (20000 - 65535) = 20000) ∧
    (∃ c', HandleSettings connThree sf20000 = some c' ∧
      c'.Window.InitialSize = 20000 ∧
      c'.Window.PeerCurrentSize =
        connThree.Window.PeerCurrentSize + (20000 - connThree.Window.InitialSize) ∧
      c'.Streams =
        connThree.Streams.map (fun p => (p.1, p.2.map (applySettingToStream 20000))) ∧
      (∀ p ∈ connThree.Streams, ∀ s, p.2 = some s →
        (applySettingToStream 20000 s).Window.InitialSize = 20000 ∧
        (applySettingToStream 20000 s).Window.PeerCurrentSize =
          s.Window.PeerCurrentSize + (20000 - s.Window.InitialSize)) ∧
      c'.WriteQueue = connThree.WriteQueue ++ [.settings ⟨ACK, 0, NilSettings⟩]) :=
  ⟨⟨rfl, by decide, by decide, by decide, by decide⟩,
   settings_valid_window_applied connThree sf20000 20000 rfl (by decide) (by decide)
     (by decide) (by decide) (by decide)⟩

/-- C3: a received DATA frame, whatever stream it targets, decrements the
connection window's `CurrentSize` by the payload length; if that drops it
below `Threshold`, a connection-scoped WINDOW_UPDATE (stream id 0) for exactly
`InitialSize - CurrentSize` is enqueued and that amount is added back, leaving
`CurrentSize = InitialSize`; otherwise nothing is enqueued. -/
theorem data_frame_window_consume (conn : Conn) (fl sid : Nat) (payload : List Nat)
    (hns : sid ≠ 0 → lookupStream conn.Streams sid ≠ some none)
    (h1 : inB32 (conn.Window.CurrentSize - Int.ofNat payload.length))
    (h2 : inB32 conn.Window.InitialSize)
    (h3 : 0 ≤ conn.Window.InitialSize -
            (conn.Window.CurrentSize - Int.ofNat payload.length))
    (h4 : inB32 (conn.Window.InitialSize -
            (conn.Window.CurrentSize - Int.ofNat payload.length))) :
    ∃ c', readStep conn (.data fl sid payload) = some (c', true) ∧
      ((conn.Window.CurrentSize - Int.ofNat payload.length < conn.Window.Threshold →
        c'.Window.CurrentSize = conn.Window.InitialSize ∧
        c'.WriteQueue = conn.WriteQueue ++
          [.windowUpdate 0 (conn.Window.InitialSize -
            (conn.Window.CurrentSize - Int.ofNat payload.length)).toNat]) ∧
       (¬ conn.Window.CurrentSize - Int.ofNat payload.length < conn.Window.Threshold →
        c'.Window.CurrentSize = conn.Window.CurrentSize - Int.ofNat payload.length ∧
        c'.WriteQueue = conn.WriteQueue)) := by
  set len : Int := Int.ofNat payload.length with hlen
  have hcur : i32sub conn.Window.CurrentSize len = conn.Window.CurrentSize - len := by
    simp only [i32sub, wrap32]; omega
  have hWcs : (WindowUpdate conn len).Window.CurrentSize =
      if conn.Window.CurrentSize - len < conn.Window.Threshold
      then conn.Window.InitialSize else conn.Window.CurrentSize - len := by
    simp only [WindowUpdate, hcur]
    split
    · simp only [i32add, i32sub, wrap32]
      omega
    · rfl
  have hWq : (WindowUpdate conn len).WriteQueue =
      if conn.Window.CurrentSize - len < conn.Window.Threshold
      then conn.WriteQueue ++
        [.windowUpdate 0 (conn.Window.InitialSize -
          (conn.Window.CurrentSize - len)).toNat]
      else conn.WriteQueue := by
    simp only [WindowUpdate, hcur]
    split
    · have : u32cast (i32sub conn.Window.InitialSize (conn.Window.CurrentSize - len)) =
          (conn.Window.InitialSize - (conn.Window.CurrentSize - len)).toNat := by
        simp only [u32cast, i32sub, wrap32]
        omega
      simp [this]
    · rfl
  have hWstreams : (WindowUpdate conn len).Streams = conn.Streams := by
    simp only [WindowUpdate, hcur]
    split <;> rfl
  have hrs : readStep conn (.data fl sid payload) =
      if sid = 0 then some (WindowUpdate conn len, true)
      else
        match streamPart (WindowUpdate conn len) (.data fl sid payload) with
        | none => none
        | some c => some (c, true) := by
    simp only [readStep, FrameV.streamId, hlen]
  by_cases hsid : sid = 0
  · refine ⟨WindowUpdate conn len, ?_, ?_, ?_⟩
    · rw [hrs, if_pos hsid]
    · intro hth
      rw [hWcs, if_pos hth, hWq, if_pos hth]
      exact ⟨rfl, rfl⟩
    · intro hth
      rw [hWcs, if_neg hth, hWq, if_neg hth]
      exact ⟨rfl, rfl⟩
  · have hlook : lookupStream (WindowUpdate conn len).Streams
        (FrameV.streamId (.data fl sid payload)) ≠ some none := by
      rw [hWstreams]
      exact hns hsid
    obtain ⟨c', hc', hW, hQ, _⟩ :=
      streamPart_some (WindowUpdate conn len) (.data fl sid payload) hlook
    refine ⟨c', ?_, ?_, ?_⟩
    · rw [hrs, if_neg hsid, hc']
    · intro hth
      rw [hW, hQ, hWcs, if_pos hth, hWq, if_pos hth]
      exact ⟨rfl, rfl⟩
    · intro hth
      rw [hW, hQ, hWcs, if_neg hth, hWq, if_neg hth]
      exact ⟨rfl, rfl⟩

/-- Witness for C3 at a connection-level window of 100/threshold 50 and a
60-byte DATA frame on stream 7: the window drops to 40, a WINDOW_UPDATE for
60 is enqueued on stream 0, and `CurrentSize` returns to 100. -/
theorem data_frame_window_consume_witness :
    (((7 : Nat) ≠ 0 → lookupStream c3conn.Streams 7 ≠ some none) ∧
     inB32 (c3conn.Window.CurrentSize - Int.ofNat payload60.length) ∧
     inB32 c3conn.Window.InitialSize ∧
     0 ≤ c3conn.Window.InitialSize -
       (c3conn.Window.CurrentSize - Int.ofNat payload60.length) ∧
     inB32 (c3conn.Window.InitialSize -
       (c3conn.Window.CurrentSize - Int.ofNat payload60.length))) ∧
    (∃ c', readStep c3conn (.data 0 7 payload60) = some (c', true) ∧
      ((c3conn.Window.CurrentSize - Int.ofNat payload60.length < c3conn.Window.Threshold →
        c'.Window.CurrentSize = c3conn.Window.InitialSize ∧
        c'.WriteQueue = c3conn.WriteQueue ++
          [.windowUpdate 0 (c3conn.Window.InitialSize -
            (c3conn.Window.CurrentSize - Int.ofNat payload60.length)).toNat]) ∧
       (¬ c3conn.Window.CurrentSize - Int.ofNat payload60.length < c3conn.Window.Threshold →
        c'.Window.CurrentSize = c3conn.Window.CurrentSize - Int.ofNat payload60.length ∧
        c'.WriteQueue = c3conn.WriteQueue))) :=
  ⟨⟨by decide, by decide, by decide, by decide, by decide⟩,
   data_frame_window_consume c3conn 0 7 payload60 (by decide) (by decide) (by decide)
     (by decide) (by decide)⟩

/-- C4: evaluation of the code at the failing input.  A received RST_STREAM
drives the freshly created stream 1 to CLOSED, after which `ReadLoop` leaves a
nil entry in the stream table (`conn.Streams[1] = nil` — the key is still
present, not removed); the next frame for identifier 1 then finds that nil
entry (so it is not treated as an unseen identifier) and the iteration
dereferences the nil stream pointer. -/
theorem closed_stream_nil_entry_behavior :
    readStep NewConnV (.rstStream 1) = some (connNilEntry, true) ∧
    lookupStream connNilEntry.Streams 1 = some none ∧
    readStep connNilEntry hdrFrame1 = none := by
  refine ⟨by decide, by decide, by decide⟩

/-- C5: evaluation of the code on a non-acknowledgment SETTINGS frame.  The
frame's parameter set replaces the Connection's locally-announced `Settings`
table wholesale, while `PeerSettings` is not replaced — only its
initial-window-size entry is updated in place, so it still differs from the
frame's parameter set. -/
theorem settings_table_replacement_behavior :
    HandleSettings NewConnV sf20000 =
      some { NewConnV with
        Settings := sf20000.Settings,
        Window := { InitialSize := 20000, CurrentSize := 65535, Threshold := 32767,
                    PeerCurrentSize := 20000 },
        PeerSettings := setKey NewConnV.PeerSettings SETTINGS_INITIAL_WINDOW_SIZE 20000,
        WriteQueue := [.settings ⟨ACK, 0, NilSettings⟩] } ∧
    setKey NewConnV.PeerSettings SETTINGS_INITIAL_WINDOW_SIZE 20000 ≠ sf20000.Settings ∧
    NewConnV.Settings ≠ sf20000.Settings := by
  refine ⟨by decide, by decide, by decide⟩

/-- Every stream entry of a closed connection is CLOSED with a closed inbound
queue. -/
theorem connClose_stream_closed (conn : Conn) (p : Nat × Option StreamV)
    (s : StreamV) (hp : p ∈ (ConnClose conn).Streams) (hs : p.2 = some s) :
    s.State = CLOSED ∧ s.ReadChanClosed = true := by
  simp only [ConnClose] at hp
  obtain ⟨q, hq, hpq⟩ := List.mem_map.1 hp
  rw [← hpq] at hs
  simp only at hs
  cases hv : q.2 with
  | none => rw [hv] at hs; simp at hs
  | some t =>
    rw [hv] at hs
    simp only [Option.map_some'] at hs
    cases hs
    exact ⟨rfl, rfl⟩

/-- C8: a received GOAWAY closes the Connection and stops the read loop:
every owned (non-nil) stream transitions to CLOSED with its inbound queue
closed, and the shared outbound queue is closed while still holding the
already-queued frames, so `WriteLoop` drains exactly those and terminates. -/
theorem goaway_closes_connection (conn : Conn) (sid : Nat)
    (p : Nat × Option StreamV) (s : StreamV)
    (hp : p ∈ (ConnClose conn).Streams) (hs : p.2 = some s) :
    readStep conn (.goaway sid) = some (ConnClose conn, false) ∧
    s.State = CLOSED ∧ s.ReadChanClosed = true ∧
    (ConnClose conn).WriteChanClosed = true ∧
    (ConnClose conn).WriteQueue = conn.WriteQueue ∧
    WriteLoop (ConnClose conn).WriteQueue (ConnClose conn).WriteChanClosed =
      some conn.WriteQueue := by
  obtain ⟨h1, h2⟩ := connClose_stream_closed conn p s hp hs
  exact ⟨rfl, h1, h2, rfl, rfl, rfl⟩

/-- Witness for C8 at a connection with two open streams and one queued
outbound frame. -/
theorem goaway_closes_connection_witness :
    (((1 : Nat), some (StreamClose (openStream 1))) ∈ (ConnClose connTwo).Streams) ∧
    (readStep connTwo (.goaway 0) = some (ConnClose connTwo, false) ∧
     (StreamClose (openStream 1)).State = CLOSED ∧
     (StreamClose (openStream 1)).ReadChanClosed = true ∧
     (ConnClose connTwo).WriteChanClosed = true ∧
     (ConnClose connTwo).WriteQueue = connTwo.WriteQueue ∧
     WriteLoop (ConnClose connTwo).WriteQueue (ConnClose connTwo).WriteChanClosed =
       some connTwo.WriteQueue) :=
  ⟨by decide,
   goaway_closes_connection connTwo 0 (1, some (StreamClose (openStream 1)))
     (StreamClose (openStream 1)) (by decide) rfl⟩

/-- C10: evaluation of the code at the failing input.  `NewConn` installs no
independently-owned copies: both the `Settings` and `PeerSettings` fields of
every new connection are references to the package-level `DefaultSettings`
object.  The default table reads 65535 before; after one connection handles a
SETTINGS frame with initial-window-size 20000, the write through
`PeerSettings` has mutated the shared default object to 20000, which every
other connection built by `NewConn` observes through both of its
references. -/
theorem default_settings_aliasing_behavior :
    NewConnRefs.SettingsRef = defaultRef ∧
    NewConnRefs.PeerSettingsRef = defaultRef ∧
    lookupTable (readRef store0 defaultRef) SETTINGS_INITIAL_WINDOW_SIZE =
      some 65535 ∧
    lookupTable (readRef aliasResult.1 defaultRef) SETTINGS_INITIAL_WINDOW_SIZE =
      some 20000 ∧
    lookupTable (readRef aliasResult.1 NewConnRefs.PeerSettingsRef)
      SETTINGS_INITIAL_WINDOW_SIZE = some 20000 := by
  refine ⟨rfl, rfl, by decide, by decide, by decide⟩

end Http2
